import Mathlib

/-!
Verification of the icon-service transaction-admission and contract-deployment
core against its natural-language specification.

The deploy engine (`IconScoreDeployEngine` in
`iconservice/deploy/icon_score_deploy_engine.py`) is embedded shallowly:
its methods become Lean functions over an explicit `EngineState`.  Collaborators
that live outside the repository snapshot (the deploy storage, the score info
mapper, the score deployer and the pre-validator) are modelled from the spec;
each such definition carries a doc comment starting with `Modelled from the
spec:`.  Python exceptions become an `Err` sum type; a call that mutates state
and then raises is modelled by returning both the `Except` outcome and the
mutated state.
-/

namespace IconService

/-- Raw byte strings are lists of naturals (each intended to be < 256). -/
abbrev Bytes := List Nat

/-- Transaction hashes are byte strings. -/
abbrev TxHash := Bytes

/-- An ICON address: a prefix tag (contract `cx` vs externally-owned `hx`)
plus a body of bytes. -/
structure Address where
  is_contract : Bool
  body : Bytes
deriving DecidableEq

/-- The reserved all-zero contract address used as the install sentinel. -/
def ZERO_SCORE_ADDRESS : Address := ⟨true, List.replicate 20 0⟩

/-- Lower-case hexadecimal digit for a value below 16. -/
def hex_digit (n : Nat) : Char :=
  if n < 10 then Char.ofNat (48 + n) else Char.ofNat (87 + n)

/-- Two-character hexadecimal rendering of one byte. -/
def byte_to_hex (b : Nat) : String :=
  String.mk [hex_digit (b / 16 % 16), hex_digit (b % 16)]

/-- Hexadecimal rendering of a byte string. -/
def bytes_to_hex (bs : Bytes) : String :=
  String.join (bs.map byte_to_hex)

/-- Textual form of an address: prefix tag followed by the hex body. -/
def addr_to_string (a : Address) : String :=
  (if a.is_contract then "cx" else "hx") ++ bytes_to_hex a.body

/-- Numeric value of one hexadecimal digit character, if any. -/
def hex_val (c : Char) : Option Nat :=
  if 48 ≤ c.toNat ∧ c.toNat ≤ 57 then some (c.toNat - 48)
  else if 97 ≤ c.toNat ∧ c.toNat ≤ 102 then some (c.toNat - 87)
  else if 65 ≤ c.toNat ∧ c.toNat ≤ 70 then some (c.toNat - 55)
  else none

/-- Helper for `bytes_fromhex`: parse pairs of hex digits, skipping spaces
between pairs, failing on any other character or an odd digit count. -/
def fromhex_aux : List Char → Option Bytes
  | [] => some []
  | c :: rest =>
    if c = ' ' then fromhex_aux rest
    else
      match rest with
      | [] => none
      | c2 :: rest2 =>
        match hex_val c, hex_val c2 with
        | some h, some l =>
          match fromhex_aux rest2 with
          | some tl => some ((16 * h + l) :: tl)
          | none => none
        | _, _ => none

/-- Python `bytes.fromhex`: decode a hex string into bytes, `none` on a
malformed argument (which Python reports as `ValueError`). -/
def bytes_fromhex (s : String) : Option Bytes :=
  fromhex_aux s.data

/-- Dynamically-typed values stored in a Python `dict`: strings, byte
strings, and nested mappings. -/
inductive Value where
  | vStr : String → Value
  | vBytes : Bytes → Value
  | vDict : List (String × Value) → Value

/-- Association-list lookup (first binding wins), the shallow embedding of
`dict` lookup and of the key-value store reads. -/
def alGet {κ α : Type} [DecidableEq κ] : List (κ × α) → κ → Option α
  | [], _ => none
  | (k', v) :: tl, k => if k' = k then some v else alGet tl k

/-- Association-list update: replace the binding in place if the key is
present (Python `d[k] = v` keeps insertion order), append otherwise. -/
def alSet {κ α : Type} [DecidableEq κ] : List (κ × α) → κ → α → List (κ × α)
  | [], k, v => [(k, v)]
  | (k', v') :: tl, k, v => if k' = k then (k, v) :: tl else (k', v') :: alSet tl k v

/-- Write-if-absent: a write that is a benign no-op when the key already has
an entry.  Used for the materializer slots and filesystem symlinks, whose
creation raises `FileExistsError` (swallowed) on an existing target. -/
def alPutNew {κ α : Type} [DecidableEq κ] (l : List (κ × α)) (k : κ) (v : α) :
    List (κ × α) :=
  match alGet l k with
  | some _ => l
  | none => l ++ [(k, v)]

/-- Python `dict` payloads (`data`, `params`) as ordered association lists. -/
abbrev Data := List (String × Value)

/-- Test whether an optional value equals a given string (Python
`x == 'literal'` where `x` may be `None` or non-string). -/
def opt_is_str (v : Option Value) (t : String) : Bool :=
  match v with
  | some (Value.vStr u) => u == t
  | _ => false

/-- The two deploy transaction kinds. -/
inductive DeployType where
  | INSTALL
  | UPDATE
deriving DecidableEq

/-- The two lifecycle hooks a contract exposes. -/
inductive Hook where
  | on_install
  | on_update
deriving DecidableEq

/-- Lifecycle hook selected for a deploy kind. -/
def hook_of : DeployType → Hook
  | DeployType.INSTALL => Hook.on_install
  | DeployType.UPDATE => Hook.on_update

/-- Errors surfaced by the embedded code.  `invalidParams` and
`invalidRequest` mirror the service exception classes; `keyError`,
`valueError` and `typeError` mirror the Python built-in exceptions the code
can raise; `scoreError` stands for an exception raised inside a contract's
own lifecycle hook and re-raised verbatim. -/
inductive Err where
  | invalidParams : String → Err
  | invalidRequest : String → Err
  | keyError : String → Err
  | valueError : String → Err
  | typeError : String → Err
  | scoreError : String → Err
deriving DecidableEq

/-- Per-address deploy metadata.  Modelled from the spec: fields `owner`,
`current_tx_hash` (hash of the active content) and `next_tx_hash` (pending
not-yet-approved deploy). -/
structure DeployInfo where
  owner : Address
  current_tx_hash : Option TxHash
  next_tx_hash : Option TxHash
deriving DecidableEq

/-- Per-transaction-hash deploy request record.  Modelled from the spec:
written once by `invoke`, read by `deploy`. -/
structure TxDeployParams where
  score_address : Address
  deploy_state : DeployType
  deployer : Address
  tx_hash : TxHash
  deploy_data : Data

/-- Modelled from the spec: the durable `IconScoreDeployStorage`, mapping
contract addresses to `DeployInfo` and transaction hashes to
`TxDeployParams`. -/
structure Storage where
  deploy_infos : List (Address × DeployInfo)
  tx_params_table : List (TxHash × TxDeployParams)

/-- Modelled from the spec: read the pending deploy params for a hash. -/
def get_deploy_tx_params (st : Storage) (h : TxHash) : Option TxDeployParams :=
  alGet st.tx_params_table h

/-- Modelled from the spec: read the deploy metadata for an address. -/
def get_deploy_info (st : Storage) (a : Address) : Option DeployInfo :=
  alGet st.deploy_infos a

/-- Modelled from the spec: the owner currently on record for an address,
`none` when the address has never been touched. -/
def get_score_owner (st : Storage) (a : Address) : Option Address :=
  (get_deploy_info st a).map DeployInfo.owner

/-- Modelled from the spec: record a deploy request — create the
`DeployInfo` on a first request (owner := tx origin), otherwise update only
its `next_tx_hash`; and write the `TxDeployParams` record for the hash. -/
def put_deploy_info_and_tx_params (st : Storage) (a : Address)
    (dt : DeployType) (owner : Address) (h : TxHash) (d : Data) : Storage :=
  let infos :=
    match alGet st.deploy_infos a with
    | none => alSet st.deploy_infos a ⟨owner, none, some h⟩
    | some i => alSet st.deploy_infos a { i with next_tx_hash := some h }
  ⟨infos, alSet st.tx_params_table h ⟨a, dt, owner, h, d⟩⟩

/-- Modelled from the spec: seed a `DeployInfo` for a built-in address with
no prior transaction, establishing ownership. -/
def put_deploy_info_and_tx_params_for_builtin (st : Storage)
    (a owner : Address) : Storage :=
  ⟨alSet st.deploy_infos a ⟨owner, none, none⟩, st.tx_params_table⟩

/-- Modelled from the spec: promote `current_tx_hash` to the given hash for
an existing record; a no-op when the address has no record (the record is
only created by `put_deploy_info_and_tx_params`). -/
def update_score_info (st : Storage) (a : Address) (h : TxHash) : Storage :=
  match alGet st.deploy_infos a with
  | none => st
  | some i => ⟨alSet st.deploy_infos a { i with current_tx_hash := some h }, st.tx_params_table⟩

/-- The transaction part of an execution context. -/
structure Transaction where
  origin : Address
  hash : TxHash
  index : Nat

/-- The block part of an execution context. -/
structure Block where
  height : Nat

/-- The per-invocation `IconScoreContext` (only the fields the engine
reads). -/
structure IconScoreContext where
  tx : Transaction
  block : Block

/-- Process-wide configuration and external collaborators of the engine.
`flags` is the engine flag bit set; `builtin_scores` is the fixed built-in
registry (Modelled from the spec: `IconBuiltinScoreLoader.is_builtin_score`
is a membership test against a genesis-supplied set); `score_exists` says
whether the contract-instance provider can resolve a live instance at an
address; `hook_raises` gives the outcome of running a contract's own
lifecycle hook (`some msg` for a contract-raised exception, re-raised
verbatim as `Err.scoreError`). -/
structure Env where
  flags : Nat
  builtin_scores : List Address
  score_exists : Address → Bool
  hook_raises : Address → Hook → Option String

/-- The single audit flag bit (`Flag.ENABLE_DEPLOY_AUDIT = 1`). -/
def ENABLE_DEPLOY_AUDIT : Nat := 1

/-- `IconScoreDeployEngine._is_flag_on`: bitwise containment test. -/
def is_flag_on (flags flag : Nat) : Bool :=
  decide (flags &&& flag = flag)

/-- The mutable world the engine acts on: the deploy storage, the set of
addresses whose runtime-visible score database already exists, the
materializer's versioned content slots keyed by (address, block height,
transaction index), the filesystem symlinks with the same keying, plus two
observation logs: every lifecycle-hook invocation and every entry into
`deploy`. -/
structure EngineState where
  storage : Storage
  db_exists : List Address
  slots : List ((Address × Nat × Nat) × Option Value)
  links : List ((Address × Nat × Nat) × Value)
  hook_calls : List (Address × Hook × Data)
  deploy_calls : List TxHash

/-- Modelled from the spec: `IconScoreInfoMapper.is_exist_db` — whether a
runtime-visible database already exists for the address. -/
def is_exist_db (s : EngineState) (a : Address) : Bool :=
  decide (a ∈ s.db_exists)

/-- Modelled from the spec: `IconScoreInfoMapper.get_icon_score` — resolve
the live contract instance for an address (or `none`), creating the score's
runtime database as a side effect of loading the instance (this is what
makes a freshly installed address's database exist afterwards, as required
by property P2). -/
def get_icon_score (env : Env) (a : Address) (s : EngineState) :
    Option Unit × EngineState :=
  if env.score_exists a then
    (some (), { s with db_exists := if a ∈ s.db_exists then s.db_exists else a :: s.db_exists })
  else (none, s)

/-- Modelled from the spec: `IconScoreInfoMapper.delete_icon_score` evicts
the in-memory score instance cache only; the runtime database and the
durable records are untouched. -/
def delete_icon_score (s : EngineState) (_a : Address) : EngineState := s

/-- Message of the `InvalidParamsException` raised by `deploy` when no
`TxDeployParams` record exists for the hash. -/
def tx_params_is_none_msg (h : TxHash) : String :=
  "tx_params is None : " ++ bytes_to_hex h

/-- Message of the `InvalidParamsException` raised by `deploy` when no
`DeployInfo` record exists for the resolved address. -/
def deploy_info_is_none_msg (a : Address) : String :=
  "deploy_info is None : " ++ addr_to_string a

/-- Message of the `InvalidParamsException` raised when the score instance
cannot be resolved. -/
def score_is_none_msg (a : Address) : String :=
  "score is None : " ++ addr_to_string a

/-- Rendering of the offending content type inside the
`Invalid contentType` message (byte and mapping payloads are rendered in
abbreviated form; no claim depends on their exact text). -/
def render_content_type : Option Value → String
  | none => "None"
  | some (Value.vStr s) => s
  | some (Value.vBytes b) => "b" ++ bytes_to_hex b
  | some (Value.vDict _) => "dict"

/-- Message of the `InvalidParamsException` raised by `_score_deploy` on an
unsupported content type. -/
def invalid_content_type_msg (v : Option Value) : String :=
  "Invalid contentType: " ++ render_content_type v

/-- `IconScoreDeployEngine._initialize_score`: run the parameter conversion
and then the selected lifecycle hook.  The `TypeConverter` pass lives
outside this repository snapshot and the parameter shapes are contract
defined; it is modelled as the identity on the parameter mapping.  The hook
invocation is recorded in the `hook_calls` log; a hook-raised exception
propagates verbatim. -/
def initialize_score (env : Env) (a : Address) (hk : Hook) (params : Data)
    (s : EngineState) : Except Err Unit × EngineState :=
  let s' := { s with hook_calls := (a, hk, params) :: s.hook_calls }
  match env.hook_raises a hk with
  | some m => (Except.error (Err.scoreError m), s')
  | none => (Except.ok (), s')

/-- The tbears block at the head of `_on_deploy`: when the content type is
`application/tbears`, evict the cached score instance and symlink the source
path (the content entry) into the (block height, transaction index) slot; a
non-path content entry makes the symlink call raise `TypeError`.  For any
other content type, nothing happens. -/
def tbears_link_step (ctx : IconScoreContext) (a : Address)
    (content_type content : Option Value) (s : EngineState) :
    Except Err EngineState :=
  if opt_is_str content_type "application/tbears" then
    let s0 := delete_icon_score s a
    match content with
    | some (Value.vStr p) =>
      Except.ok { s0 with links := alPutNew s0.links (a, ctx.block.height, ctx.tx.index) (Value.vStr p) }
    | some (Value.vBytes p) =>
      Except.ok { s0 with links := alPutNew s0.links (a, ctx.block.height, ctx.tx.index) (Value.vBytes p) }
    | _ => Except.error (Err.typeError "symlink src")
  else Except.ok s

/-- `IconScoreDeployEngine._on_deploy`: run the tbears symlink block; hand
the content to the deployer (Modelled from the spec: the deployer's write is
a benign no-op when the exact slot already exists); read whether the runtime
database exists, resolve the score instance (error when it cannot be
resolved), and run the lifecycle hook only when the database did not exist. -/
def on_deploy (env : Env) (ctx : IconScoreContext) (dt : DeployType)
    (a : Address) (data : Data) (s : EngineState) :
    Except Err Unit × EngineState :=
  let content_type := alGet data "contentType"
  let content := alGet data "content"
  let params_val := (alGet data "params").getD (Value.vDict [])
  match tbears_link_step ctx a content_type content s with
  | Except.error e => (Except.error e, s)
  | Except.ok s1 =>
    let s2 := { s1 with slots := alPutNew s1.slots (a, ctx.block.height, ctx.tx.index) content }
    let db_exist : Bool := is_exist_db s2 a
    let r := get_icon_score env a s2
    match r.1 with
    | none => (Except.error (Err.invalidParams (score_is_none_msg a)), r.2)
    | some _ =>
      if db_exist then (Except.ok (), r.2)
      else
        match params_val with
        | Value.vDict m => initialize_score env a (hook_of dt) m r.2
        | _ => (Except.error (Err.typeError "params"), r.2)

/-- The content-type dispatch of `IconScoreDeployEngine._score_deploy`: pass
tbears data through unchanged; for zip content, strip the first two
characters of the content string and hex-decode it into bytes, storing the
bytes back under the `content` key; reject any other content type. -/
def score_deploy_data (data : Data) : Except Err Data :=
  let content_type := alGet data "contentType"
  if opt_is_str content_type "application/tbears" then Except.ok data
  else if opt_is_str content_type "application/zip" then
    match alGet data "content" with
    | some (Value.vStr c) =>
      (match bytes_fromhex (String.drop c 2) with
       | some b => Except.ok (alSet data "content" (Value.vBytes b))
       | none => Except.error (Err.valueError "non-hexadecimal number found in fromhex"))
    | some _ => Except.error (Err.typeError "fromhex expects str")
    | none => Except.error (Err.keyError "content")
  else Except.error (Err.invalidParams (invalid_content_type_msg content_type))

/-- `IconScoreDeployEngine._score_deploy`: the content-type dispatch above
followed by `_on_deploy` on the (possibly mutated) data. -/
def score_deploy (env : Env) (ctx : IconScoreContext) (dt : DeployType)
    (a : Address) (data : Data) (s : EngineState) :
    Except Err Unit × EngineState :=
  match score_deploy_data data with
  | Except.error e => (Except.error e, s)
  | Except.ok data' => on_deploy env ctx dt a data' s

/-- `IconScoreDeployEngine.deploy`: look up the recorded params for the
hash (error when absent), promote the resolved address's deploy info to this
hash, require a deploy info record (error when absent), then run
`_score_deploy`.  Entering the method is recorded in the `deploy_calls`
log. -/
def deploy (env : Env) (ctx : IconScoreContext) (tx_hash : TxHash)
    (s : EngineState) : Except Err Unit × EngineState :=
  let s0 := { s with deploy_calls := tx_hash :: s.deploy_calls }
  match get_deploy_tx_params s0.storage tx_hash with
  | none => (Except.error (Err.invalidParams (tx_params_is_none_msg tx_hash)), s0)
  | some tx_params =>
    let score_address := tx_params.score_address
    let s1 := { s0 with storage := update_score_info s0.storage score_address tx_hash }
    match get_deploy_info s1.storage score_address with
    | none => (Except.error (Err.invalidParams (deploy_info_is_none_msg score_address)), s1)
    | some _ => score_deploy env ctx tx_params.deploy_state score_address tx_params.deploy_data s1

/-- `IconScoreDeployEngine.write_deploy_info_and_tx_params`. -/
def write_deploy_info_and_tx_params (ctx : IconScoreContext)
    (dt : DeployType) (a : Address) (data : Data) (s : EngineState) :
    EngineState :=
  { s with storage := put_deploy_info_and_tx_params s.storage a dt ctx.tx.origin ctx.tx.hash data }

/-- `IconScoreDeployEngine.write_deploy_info_and_tx_params_for_builtin`. -/
def write_deploy_info_and_tx_params_for_builtin (a owner : Address)
    (s : EngineState) : EngineState :=
  { s with storage := put_deploy_info_and_tx_params_for_builtin s.storage a owner }

/-- `IconScoreDeployEngine._check_audit_ignore`: bypass auditing when the
audit flag is off, or when the address is a built-in score and the
transaction origin equals the owner on record. -/
def check_audit_ignore (env : Env) (ctx : IconScoreContext) (a : Address)
    (st : Storage) : Bool :=
  let is_built_score : Bool := decide (a ∈ env.builtin_scores)
  let is_owner : Bool := decide (get_score_owner st a = some ctx.tx.origin)
  let is_enable_audit : Bool := is_flag_on env.flags ENABLE_DEPLOY_AUDIT
  !is_enable_audit || (is_built_score && is_owner)

/-- `IconScoreDeployEngine.invoke`: compute the deploy kind from the `to`
sentinel, record the deploy info and tx params, and run `deploy` at once
when `_check_audit_ignore` grants a bypass (the `try`/`except` wrapper of
the source only logs and re-raises). -/
def invoke (env : Env) (ctx : IconScoreContext) (to_addr : Address)
    (icon_score_address : Address) (data : Data) (s : EngineState) :
    Except Err Unit × EngineState :=
  let deploy_state := if to_addr = ZERO_SCORE_ADDRESS then DeployType.INSTALL else DeployType.UPDATE
  let s1 := write_deploy_info_and_tx_params ctx deploy_state icon_score_address data s
  if check_audit_ignore env ctx icon_score_address s1.storage then
    deploy env ctx ctx.tx.hash s1
  else (Except.ok (), s1)

/-- `IconScoreDeployEngine._on_deploy_for_builtin`: link the source path
into the version-0 slot (block height 0, transaction index 0; an existing
link is left in place), resolve the score instance (error when it cannot be
resolved), and invoke `on_install` with an empty parameter set only when the
runtime database did not already exist. -/
def on_deploy_for_builtin (env : Env) (a : Address) (src_score_path : String)
    (s : EngineState) : Except Err Unit × EngineState :=
  let s1 := { s with links := alPutNew s.links (a, 0, 0) (Value.vStr src_score_path) }
  let is_db : Bool := is_exist_db s1 a
  let r := get_icon_score env a s1
  match r.1 with
  | none => (Except.error (Err.invalidParams (score_is_none_msg a)), r.2)
  | some _ =>
    if is_db then (Except.ok (), r.2)
    else initialize_score env a Hook.on_install [] r.2

/-- `IconScoreDeployEngine._score_deploy_for_builtin`. -/
def score_deploy_for_builtin (env : Env) (a : Address) (src_score_path : String)
    (s : EngineState) : Except Err Unit × EngineState :=
  on_deploy_for_builtin env a src_score_path s

/-- `IconScoreDeployEngine.deploy_for_builtin`. -/
def deploy_for_builtin (env : Env) (a : Address) (src_score_path : String)
    (s : EngineState) : Except Err Unit × EngineState :=
  score_deploy_for_builtin env a src_score_path s

/-- `IconScoreDeployEngine.commit`: a no-op hook. -/
def commit (s : EngineState) : EngineState := s

/-- `IconScoreDeployEngine.rollback`: the engine buffers nothing of its own,
so rollback is a no-op on the engine state. -/
def rollback (s : EngineState) : EngineState := s

/-- Big-endian byte rendering of a natural in exactly `w` bytes
(most-significant first, truncating above `256 ^ w`). -/
def nat_to_bytes : Nat → Nat → Bytes
  | 0, _ => []
  | Nat.succ k, n => nat_to_bytes k (n / 256) ++ [n % 256]

/-- One mixing step of the modelled content digest. -/
def digest_step (acc b : Nat) : Nat :=
  (acc * 131 + (b + 1)) % (2 ^ 160)

/-- Modelled from the spec: the one-way content digest underlying address
generation (the reference system uses a cryptographic hash, which is
external; what the spec relies on is that the derivation is a deterministic
pure function truncated to the address width). -/
def digest (bs : Bytes) : Nat :=
  bs.foldl digest_step 17

/-- Modelled from the spec: `generate_score_address(deployer, timestamp,
nonce)` — a deterministic derivation of a contract address from the three
inputs via a content digest of their concatenation, tagged with the
contract prefix. -/
def generate_score_address (from_addr : Address) (timestamp : Nat)
    (nonce : Option Nat) : Address :=
  ⟨true, nat_to_bytes 20 (digest (from_addr.body ++ nat_to_bytes 8 timestamp ++
      (match nonce with | none => [] | some n => nat_to_bytes 8 n)))⟩

/-- A transaction request as seen by the pre-validator (the Python request
`dict`, with the optional keys as `Option` fields). -/
structure TxReq where
  version : Option Nat
  tx_hash : Option TxHash
  from_addr : Address
  to_addr : Address
  value : Int
  step_limit : Nat
  fee : Nat
  timestamp : Nat
  nonce : Option Nat
  data_type : Option String
  data : Data

/-- Modelled from the spec: the external collaborators of the pre-validator
— the balance oracle, the contract-status oracle, and the key set of the
score mapper / deploy store used by the collision check. -/
structure ValidatorEnv where
  get_balance : Address → Nat
  is_score_status_active : Address → Bool
  score_mapper_keys : List Address

/-- Modelled from the spec: the admission cost of a request — legacy
transactions (no declared version) pay the flat `fee` field, current-version
transactions pay `step_limit * step_price`. -/
def cost (tx : TxReq) (step_price : Nat) : Int :=
  match tx.version with
  | some _ => ((tx.step_limit * step_price : Nat) : Int)
  | none => (tx.fee : Int)

/-- Modelled from the spec:
`IconPreValidator._validate_new_score_address_on_deploy_transaction` — for a
deploy transaction targeting the zero sentinel, recompute the deterministic
new address from (from, timestamp, nonce) and reject the request when an
entry for that address already exists in the score mapper. -/
def validate_new_score_address_on_deploy_transaction (env : ValidatorEnv)
    (tx : TxReq) : Except Err Unit :=
  if tx.to_addr = ZERO_SCORE_ADDRESS ∧ tx.data_type = some "deploy" then
    let score_address := generate_score_address tx.from_addr tx.timestamp tx.nonce
    if score_address ∈ env.score_mapper_keys then
      Except.error (Err.invalidRequest
        ("SCORE address already in use: " ++ addr_to_string score_address))
    else Except.ok ()
  else Except.ok ()

/-- Modelled from the spec: `IconPreValidator.execute` — in order and
failing fast: the version gate fixes the cost; a negative `value` is an
`InvalidParams` error; a balance below `value + cost` is an `InvalidRequest`
"Out of balance"; a contract-form destination other than the zero sentinel
must be active; finally the new-address collision check for deploy
transactions. -/
def execute (env : ValidatorEnv) (tx : TxReq) (step_price : Nat) :
    Except Err Unit :=
  let c : Int := cost tx step_price
  if tx.value < 0 then Except.error (Err.invalidParams "value < 0")
  else if ((env.get_balance tx.from_addr : Int) < tx.value + c) then
    Except.error (Err.invalidRequest "Out of balance")
  else if tx.to_addr.is_contract ∧ tx.to_addr ≠ ZERO_SCORE_ADDRESS ∧
      env.is_score_status_active tx.to_addr = false then
    Except.error (Err.invalidRequest ("Invalid address: " ++ addr_to_string tx.to_addr))
  else validate_new_score_address_on_deploy_transaction env tx

/-! ### Concrete instances used to evaluate the theorems on sample inputs -/

/-- A sample contract address. -/
def aW : Address := ⟨true, [1, 2, 3]⟩

/-- A sample externally-owned (owner) address. -/
def ownerW : Address := ⟨false, [9]⟩

/-- A sample context: origin `ownerW`, tx hash `[1]`, tx index 0, block
height 5. -/
def ctxW : IconScoreContext := ⟨⟨ownerW, [1], 0⟩, ⟨5⟩⟩

/-- Sample zip deploy data with hex content `0x1234`. -/
def dataW : Data :=
  [("contentType", Value.vStr "application/zip"),
   ("content", Value.vStr "0x1234"),
   ("params", Value.vDict [])]

/-- A sample environment: auditing off, no built-ins, every score instance
resolvable, no hook ever raises. -/
def envW : Env := ⟨0, [], fun _ => true, fun _ _ => none⟩

/-- A sample engine state holding a recorded deploy request for hash `[1]`
targeting `aW`. -/
def sW : EngineState :=
  ⟨⟨[(aW, ⟨ownerW, none, some [1]⟩)],
    [([1], ⟨aW, DeployType.INSTALL, ownerW, [1], dataW⟩)]⟩, [], [], [], [], []⟩

/-- The empty engine state. -/
def sEmpty : EngineState := ⟨⟨[], []⟩, [], [], [], [], []⟩

/-- Sample data with an unsupported content type. -/
def dataBad : Data := [("contentType", Value.vStr "text/plain")]

/-- Sample tbears deploy data. -/
def dataTb : Data :=
  [("contentType", Value.vStr "application/tbears"),
   ("content", Value.vStr "score/path")]

/-- Sample deploy params for the claim C3 scenario (unsupported content
type recorded for hash `[1]`). -/
def pC3 : TxDeployParams := ⟨aW, DeployType.UPDATE, ownerW, [1], dataBad⟩

/-- Sample deploy info whose current hash is `[9]`. -/
def iC3 : DeployInfo := ⟨ownerW, some [9], none⟩

/-- Sample state for the claim C3 scenario: hash `[1]` has recorded params
with an unsupported content type, and `aW` has an active version `[9]`. -/
def sC3 : EngineState := ⟨⟨[(aW, iC3)], [([1], pC3)]⟩, [], [], [], [], []⟩

/-- A sample validator environment: balance 0 everywhere, no active score,
empty mapper. -/
def vEnvW : ValidatorEnv := ⟨fun _ => 0, fun _ => false, []⟩

/-- A sample sender address for validator scenarios. -/
def fromW : Address := ⟨false, [10, 11]⟩

/-- A current-version transaction with a negative value. -/
def txNeg : TxReq :=
  ⟨some 3, some [1], fromW, ⟨true, [7]⟩, -10, 100, 0, 123456, some 1, none, []⟩

/-- A current-version transaction with value 10 and step limit 100. -/
def txPos : TxReq :=
  ⟨some 3, some [1], fromW, ⟨true, [7]⟩, 10, 100, 0, 123456, some 1, none, []⟩

/-- The deterministic new address for the claim C7 scenario. -/
def addrGenW : Address := generate_score_address fromW 1234567890 none

/-- A validator environment whose mapper already holds `addrGenW`. -/
def vEnvC7 : ValidatorEnv := ⟨fun _ => 0, fun _ => false, [addrGenW]⟩

/-- The claim C7 deploy request targeting the zero sentinel. -/
def txC7 : TxReq :=
  ⟨none, none, fromW, ZERO_SCORE_ADDRESS, 0, 0, 0, 1234567890, none, some "deploy",
   [("contentType", Value.vStr "application/zip"), ("content", Value.vStr "0x1234")]⟩

/-! ### Helper lemmas -/

theorem alGet_alSet_self {κ α : Type} [DecidableEq κ] (l : List (κ × α))
    (k : κ) (v : α) : alGet (alSet l k v) k = some v := by
  induction l with
  | nil => simp [alGet, alSet]
  | cons hd tl ih =>
    obtain ⟨k', v'⟩ := hd
    by_cases h : k' = k
    · simp [alSet, h, alGet]
    · simp [alSet, h, alGet, ih]

theorem alGet_alSet_ne {κ α : Type} [DecidableEq κ] (l : List (κ × α))
    (k k' : κ) (v : α) (h : k' ≠ k) :
    alGet (alSet l k v) k' = alGet l k' := by
  induction l with
  | nil =>
    simp only [alSet, alGet]
    rw [if_neg (Ne.symm h)]
  | cons hd tl ih =>
    obtain ⟨k0, v0⟩ := hd
    by_cases h0 : k0 = k
    · subst h0
      simp only [alSet, if_pos rfl, alGet]
      rw [if_neg (Ne.symm h), if_neg (Ne.symm h)]
    · simp only [alSet, if_neg h0, alGet]
      by_cases h1 : k0 = k'
      · simp [h1]
      · simp [h1, ih]

theorem msg_head_ne {s t : String} (c d : Char) (hs : s.data.head? = some c)
    (ht : t.data.head? = some d) (hcd : c ≠ d) : s ≠ t := by
  intro e
  rw [e, ht] at hs
  exact hcd (Option.some.inj hs).symm

theorem lit_append_ne {p q : String} (x y : String) (c d : Char)
    (cs ds : List Char) (hp : p.data = c :: cs) (hq : q.data = d :: ds)
    (hcd : c ≠ d) : p ++ x ≠ q ++ y := by
  apply msg_head_ne c d ?_ ?_ hcd
  · rw [String.data_append, hp]
    rfl
  · rw [String.data_append, hq]
    rfl

theorem lit_append_ne_str {p t : String} (x : String) (c d : Char)
    (cs ds : List Char) (hp : p.data = c :: cs) (ht : t.data = d :: ds)
    (hcd : c ≠ d) : p ++ x ≠ t := by
  apply msg_head_ne c d ?_ ?_ hcd
  · rw [String.data_append, hp]
    rfl
  · rw [ht]
    rfl

theorem initialize_score_snd (env : Env) (a : Address) (hk : Hook)
    (p : Data) (s : EngineState) :
    (initialize_score env a hk p s).2 =
      { s with hook_calls := (a, hk, p) :: s.hook_calls } := by
  unfold initialize_score
  cases env.hook_raises a hk <;> rfl

theorem get_icon_score_snd_storage (env : Env) (a : Address) (s : EngineState) :
    (get_icon_score env a s).2.storage = s.storage := by
  unfold get_icon_score
  split <;> rfl

theorem get_icon_score_snd_slots (env : Env) (a : Address) (s : EngineState) :
    (get_icon_score env a s).2.slots = s.slots := by
  unfold get_icon_score
  split <;> rfl

theorem get_icon_score_snd_links (env : Env) (a : Address) (s : EngineState) :
    (get_icon_score env a s).2.links = s.links := by
  unfold get_icon_score
  split <;> rfl

theorem get_icon_score_snd_hook_calls (env : Env) (a : Address) (s : EngineState) :
    (get_icon_score env a s).2.hook_calls = s.hook_calls := by
  unfold get_icon_score
  split <;> rfl

theorem get_icon_score_snd_deploy_calls (env : Env) (a : Address) (s : EngineState) :
    (get_icon_score env a s).2.deploy_calls = s.deploy_calls := by
  unfold get_icon_score
  split <;> rfl

theorem get_icon_score_db_mono (env : Env) (a a' : Address) (s : EngineState)
    (h : a' ∈ s.db_exists) : a' ∈ (get_icon_score env a s).2.db_exists := by
  unfold get_icon_score
  split
  · dsimp only
    split
    · exact h
    · exact List.mem_cons_of_mem _ h
  · exact h

theorem get_icon_score_some_mem (env : Env) (a : Address) (s : EngineState)
    (u : Unit) (h : (get_icon_score env a s).1 = some u) :
    a ∈ (get_icon_score env a s).2.db_exists := by
  by_cases hex : env.score_exists a
  · unfold get_icon_score
    simp only [hex, if_true]
    by_cases hm : a ∈ s.db_exists
    · simp [hm]
    · simp [hm]
  · unfold get_icon_score at h
    simp [hex] at h

theorem tbears_link_step_ok_fields (ctx : IconScoreContext) (a : Address)
    (ct c : Option Value) (s s1 : EngineState)
    (h : tbears_link_step ctx a ct c s = Except.ok s1) :
    s1.storage = s.storage ∧ s1.db_exists = s.db_exists ∧ s1.slots = s.slots ∧
    s1.hook_calls = s.hook_calls ∧ s1.deploy_calls = s.deploy_calls := by
  simp only [tbears_link_step, delete_icon_score] at h
  split at h
  · split at h
    · cases h
      exact ⟨rfl, rfl, rfl, rfl, rfl⟩
    · cases h
      exact ⟨rfl, rfl, rfl, rfl, rfl⟩
    · cases h
  · cases h
    exact ⟨rfl, rfl, rfl, rfl, rfl⟩

theorem tbears_link_step_not_tbears (ctx : IconScoreContext) (a : Address)
    (ct c : Option Value) (s : EngineState)
    (h : opt_is_str ct "application/tbears" = false) :
    tbears_link_step ctx a ct c s = Except.ok s := by
  unfold tbears_link_step
  simp [h]

theorem tbears_link_step_error (ctx : IconScoreContext) (a : Address)
    (ct c : Option Value) (s : EngineState) (e : Err)
    (h : tbears_link_step ctx a ct c s = Except.error e) :
    e = Err.typeError "symlink src" := by
  simp only [tbears_link_step, delete_icon_score] at h
  split at h
  · split at h
    · cases h
    · cases h
    · cases h
      rfl
  · cases h

theorem initialize_score_fst_not_invalid (env : Env) (a : Address) (hk : Hook)
    (p : Data) (s : EngineState) (m : String) :
    (initialize_score env a hk p s).1 ≠ Except.error (Err.invalidParams m) := by
  unfold initialize_score
  cases env.hook_raises a hk <;> simp

theorem on_deploy_preserves (env : Env) (ctx : IconScoreContext)
    (dt : DeployType) (a : Address) (d : Data) (s : EngineState) :
    (on_deploy env ctx dt a d s).2.storage = s.storage ∧
    (on_deploy env ctx dt a d s).2.deploy_calls = s.deploy_calls := by
  simp only [on_deploy]
  split
  · exact ⟨rfl, rfl⟩
  · rename_i s1 heq
    obtain ⟨hst, hdbE, hsl, hhc, hdc⟩ := tbears_link_step_ok_fields _ _ _ _ _ _ heq
    constructor <;>
    · split
      · simp [get_icon_score_snd_storage, get_icon_score_snd_deploy_calls, hst, hdc]
      · split
        · simp [get_icon_score_snd_storage, get_icon_score_snd_deploy_calls, hst, hdc]
        · split
          · simp [initialize_score_snd, get_icon_score_snd_storage,
              get_icon_score_snd_deploy_calls, hst, hdc]
          · simp [get_icon_score_snd_storage, get_icon_score_snd_deploy_calls, hst, hdc]

theorem on_deploy_hook_calls_of_db (env : Env) (ctx : IconScoreContext)
    (dt : DeployType) (a : Address) (d : Data) (s : EngineState)
    (hdb : a ∈ s.db_exists) :
    (on_deploy env ctx dt a d s).2.hook_calls = s.hook_calls := by
  simp only [on_deploy]
  split
  · rfl
  · rename_i s1 heq
    obtain ⟨hst, hdbE, hsl, hhc, hdc⟩ := tbears_link_step_ok_fields _ _ _ _ _ _ heq
    have hmem : a ∈ s1.db_exists := by rw [hdbE]; exact hdb
    split
    · simp [get_icon_score_snd_hook_calls, hhc]
    · simp [is_exist_db, hmem, get_icon_score_snd_hook_calls, hhc]

theorem on_deploy_hook_spec (env : Env) (ctx : IconScoreContext)
    (dt : DeployType) (a : Address) (d : Data) (s : EngineState) :
    (on_deploy env ctx dt a d s).2.hook_calls = s.hook_calls ∨
    a ∈ (on_deploy env ctx dt a d s).2.db_exists := by
  simp only [on_deploy]
  split
  · left
    rfl
  · rename_i s1 hok
    obtain ⟨hst, hdbE, hsl, hhc, hdc⟩ := tbears_link_step_ok_fields _ _ _ _ _ _ hok
    split
    · left
      simp [get_icon_score_snd_hook_calls, hhc]
    · rename_i u heq
      right
      have hmem := get_icon_score_some_mem env a _ u heq
      split
      · exact hmem
      · split
        · rw [initialize_score_snd]
          exact hmem
        · exact hmem

theorem on_deploy_invalid_params_msg (env : Env) (ctx : IconScoreContext)
    (dt : DeployType) (a : Address) (d : Data) (s : EngineState) (m : String)
    (h : (on_deploy env ctx dt a d s).1 = Except.error (Err.invalidParams m)) :
    m = score_is_none_msg a := by
  simp only [on_deploy] at h
  split at h
  · rename_i e heq
    have := tbears_link_step_error _ _ _ _ _ _ heq
    subst this
    simp at h
  · split at h
    · simp at h
      exact h.symm
    · split at h
      · simp at h
      · split at h
        · exact absurd h (initialize_score_fst_not_invalid _ _ _ _ _ _)
        · simp at h

theorem score_deploy_data_err_msg (d : Data) (m : String)
    (h : score_deploy_data d = Except.error (Err.invalidParams m)) :
    m = invalid_content_type_msg (alGet d "contentType") := by
  simp only [score_deploy_data] at h
  split at h
  · simp at h
  · split at h
    · split at h
      · split at h
        · simp at h
        · simp at h
      · simp at h
      · simp at h
    · simp at h
      exact h.symm

theorem score_deploy_preserves (env : Env) (ctx : IconScoreContext)
    (dt : DeployType) (a : Address) (d : Data) (s : EngineState) :
    (score_deploy env ctx dt a d s).2.storage = s.storage ∧
    (score_deploy env ctx dt a d s).2.deploy_calls = s.deploy_calls := by
  simp only [score_deploy]
  split
  · exact ⟨rfl, rfl⟩
  · exact on_deploy_preserves env ctx dt a _ s

theorem score_deploy_hook_calls_of_db (env : Env) (ctx : IconScoreContext)
    (dt : DeployType) (a : Address) (d : Data) (s : EngineState)
    (hdb : a ∈ s.db_exists) :
    (score_deploy env ctx dt a d s).2.hook_calls = s.hook_calls := by
  simp only [score_deploy]
  split
  · rfl
  · exact on_deploy_hook_calls_of_db env ctx dt a _ s hdb

theorem score_deploy_hook_spec (env : Env) (ctx : IconScoreContext)
    (dt : DeployType) (a : Address) (d : Data) (s : EngineState) :
    (score_deploy env ctx dt a d s).2.hook_calls = s.hook_calls ∨
    a ∈ (score_deploy env ctx dt a d s).2.db_exists := by
  simp only [score_deploy]
  split
  · left
    rfl
  · exact on_deploy_hook_spec env ctx dt a _ s

theorem score_deploy_invalid_params_msg (env : Env) (ctx : IconScoreContext)
    (dt : DeployType) (a : Address) (d : Data) (s : EngineState) (m : String)
    (h : (score_deploy env ctx dt a d s).1 = Except.error (Err.invalidParams m)) :
    m = invalid_content_type_msg (alGet d "contentType") ∨ m = score_is_none_msg a := by
  simp only [score_deploy] at h
  split at h
  · rename_i e heq
    simp at h
    subst h
    exact Or.inl (score_deploy_data_err_msg _ _ heq)
  · exact Or.inr (on_deploy_invalid_params_msg _ _ _ _ _ _ _ h)

theorem update_score_info_table (st : Storage) (a : Address) (h : TxHash) :
    (update_score_info st a h).tx_params_table = st.tx_params_table := by
  unfold update_score_info
  split <;> rfl

theorem deploy_snd_deploy_calls (env : Env) (ctx : IconScoreContext)
    (h : TxHash) (s : EngineState) :
    (deploy env ctx h s).2.deploy_calls = h :: s.deploy_calls := by
  simp only [deploy]
  split
  · rfl
  · split
    · rfl
    · exact (score_deploy_preserves _ _ _ _ _ _).2

theorem deploy_snd_tx_table (env : Env) (ctx : IconScoreContext)
    (h : TxHash) (s : EngineState) :
    (deploy env ctx h s).2.storage.tx_params_table = s.storage.tx_params_table := by
  simp only [deploy]
  split
  · rfl
  · split
    · exact update_score_info_table _ _ _
    · rw [(score_deploy_preserves _ _ _ _ _ _).1]
      exact update_score_info_table _ _ _

theorem deploy_hook_skip (env : Env) (ctx : IconScoreContext) (h : TxHash)
    (s : EngineState) (p : TxDeployParams)
    (hp : get_deploy_tx_params s.storage h = some p)
    (hdb : p.score_address ∈ s.db_exists) :
    (deploy env ctx h s).2.hook_calls = s.hook_calls := by
  simp only [deploy]
  have hp' : get_deploy_tx_params
      ({ s with deploy_calls := h :: s.deploy_calls } : EngineState).storage h = some p := hp
  rw [hp']
  dsimp only
  split
  · rfl
  · exact score_deploy_hook_calls_of_db _ _ _ _ _ _ hdb

theorem validate_new_score_address_not_oob (env : ValidatorEnv) (tx : TxReq) :
    validate_new_score_address_on_deploy_transaction env tx ≠
      Except.error (Err.invalidRequest "Out of balance") := by
  simp only [validate_new_score_address_on_deploy_transaction]
  split
  · split
    · intro hbad
      have hmsg := Err.invalidRequest.inj (Except.error.inj hbad)
      exact absurd hmsg (lit_append_ne_str _ 'S' 'O' _ _ rfl rfl (by decide))
    · exact fun hbad => Except.noConfusion hbad
  · exact fun hbad => Except.noConfusion hbad

/-! ### Claim theorems -/

/-- Claim C8: a transaction with a negative value is rejected by
`execute` with `InvalidParams` and the message "value < 0", before the
balance check is reached (the conclusion holds for every balance oracle,
including one on which the balance is also insufficient). -/
theorem execute_negative_value_rejected (env : ValidatorEnv) (tx : TxReq)
    (step_price : Nat) (hv : tx.value < 0) :
    execute env tx step_price = Except.error (Err.invalidParams "value < 0") := by
  simp only [execute]
  rw [if_pos hv]

/-- Witness for claim C8: at a concrete transaction with value `-10`, a
zero balance (so the balance is also insufficient for `value + cost`), the
validator reports "value < 0". -/
theorem execute_negative_value_rejected_witness :
    txNeg.value < 0 ∧
    ((vEnvW.get_balance txNeg.from_addr : Int) < txNeg.value + cost txNeg 1) ∧
    execute vEnvW txNeg 1 = Except.error (Err.invalidParams "value < 0") :=
  ⟨by decide, by decide, execute_negative_value_rejected vEnvW txNeg 1 (by decide)⟩

/-- Claim C7: for a deploy transaction targeting the zero sentinel, the
validator recomputes the deterministic address; when that address already
has an entry in the mapper, validation fails with "SCORE address already in
use: <address>", while the same request with `to` set directly to that
address passes this validation. -/
theorem validate_new_score_address_collision (env : ValidatorEnv) (tx : TxReq)
    (hto : tx.to_addr = ZERO_SCORE_ADDRESS) (hdt : tx.data_type = some "deploy")
    (hmem : generate_score_address tx.from_addr tx.timestamp tx.nonce ∈ env.score_mapper_keys)
    (hnz : generate_score_address tx.from_addr tx.timestamp tx.nonce ≠ ZERO_SCORE_ADDRESS) :
    validate_new_score_address_on_deploy_transaction env tx =
      Except.error (Err.invalidRequest ("SCORE address already in use: " ++
        addr_to_string (generate_score_address tx.from_addr tx.timestamp tx.nonce))) ∧
    validate_new_score_address_on_deploy_transaction env
      { tx with to_addr := generate_score_address tx.from_addr tx.timestamp tx.nonce } =
      Except.ok () := by
  constructor
  · simp only [validate_new_score_address_on_deploy_transaction]
    rw [if_pos ⟨hto, hdt⟩, if_pos hmem]
  · simp only [validate_new_score_address_on_deploy_transaction]
    rw [if_neg (fun hc => hnz hc.1)]

/-- Witness for claim C7: a concrete request from `fromW` at timestamp
1234567890 with no nonce computes `addrGenW`; with `addrGenW` pre-registered
the request is rejected with the collision message, and the same request
addressed directly to `addrGenW` passes. -/
theorem validate_new_score_address_collision_witness :
    validate_new_score_address_on_deploy_transaction vEnvC7 txC7 =
      Except.error (Err.invalidRequest ("SCORE address already in use: " ++
        addr_to_string addrGenW)) ∧
    validate_new_score_address_on_deploy_transaction vEnvC7
      { txC7 with to_addr := addrGenW } = Except.ok () :=
  validate_new_score_address_collision vEnvC7 txC7 rfl rfl
    (List.mem_singleton.mpr rfl) (by decide)

/-- Claim C6 counterexample: the claimed equivalence "execute fails with
Out of balance iff balance < value + cost" is false as stated: at a
transaction with value `-10`, step limit 100 and step price 1 against a
zero balance, `balance < value + cost` holds, yet `execute` fails with
`InvalidParams "value < 0"` and not with "Out of balance". -/
theorem execute_out_of_balance_counterexample :
    ((vEnvW.get_balance txNeg.from_addr : Int) < txNeg.value + cost txNeg 1) ∧
    execute vEnvW txNeg 1 = Except.error (Err.invalidParams "value < 0") ∧
    execute vEnvW txNeg 1 ≠ Except.error (Err.invalidRequest "Out of balance") :=
  ⟨by decide, rfl, by
    intro hbad
    rw [show execute vEnvW txNeg 1 =
        Except.error (Err.invalidParams "value < 0") from rfl] at hbad
    exact Err.noConfusion (Except.error.inj hbad)⟩

/-- Claim C6 amended: for transactions with a non-negative value,
`execute` fails with `InvalidRequest` "Out of balance" exactly when
`balance(from) < value + cost`, where `cost` is the flat fee for legacy
transactions and `step_limit * step_price` for current-version
transactions; with a sufficient balance the balance check passes. -/
theorem execute_out_of_balance_iff (env : ValidatorEnv) (tx : TxReq)
    (step_price : Nat) (hv : 0 ≤ tx.value) :
    execute env tx step_price = Except.error (Err.invalidRequest "Out of balance") ↔
    ((env.get_balance tx.from_addr : Int) < tx.value + cost tx step_price) := by
  constructor
  · intro hx
    by_contra hlt
    simp only [execute] at hx
    rw [if_neg (not_lt.mpr hv), if_neg hlt] at hx
    split at hx
    · have hmsg := Err.invalidRequest.inj (Except.error.inj hx)
      exact absurd hmsg (lit_append_ne_str _ 'I' 'O' _ _ rfl rfl (by decide))
    · exact validate_new_score_address_not_oob env tx hx
  · intro hlt
    simp only [execute]
    rw [if_neg (not_lt.mpr hv), if_pos hlt]

/-- Witness for claim C6 amended: a concrete transaction with value 10,
step limit 100, step price 1 against a zero balance is rejected with
"Out of balance". -/
theorem execute_out_of_balance_iff_witness :
    execute vEnvW txPos 1 = Except.error (Err.invalidRequest "Out of balance") :=
  (execute_out_of_balance_iff vEnvW txPos 1 (by decide)).mpr (by decide)

/-- Claim C1: after `invoke` writes the deploy info and tx params, it calls
`deploy(context, context.tx.hash)` within the same invocation (observed on
the `deploy_calls` log) exactly when the `ENABLE_DEPLOY_AUDIT` flag is off,
or the target address is a built-in score address and the transaction
origin equals the owner recorded in the deploy storage for that address;
otherwise it returns with the deployment left pending. -/
theorem invoke_calls_deploy_iff_audit_bypass (env : Env)
    (ctx : IconScoreContext) (to_addr icon_score_address : Address)
    (data : Data) (s : EngineState) :
    (invoke env ctx to_addr icon_score_address data s).2.deploy_calls =
      (if is_flag_on env.flags ENABLE_DEPLOY_AUDIT = false
          ∨ (icon_score_address ∈ env.builtin_scores ∧
             get_score_owner (write_deploy_info_and_tx_params ctx
                 (if to_addr = ZERO_SCORE_ADDRESS then DeployType.INSTALL else DeployType.UPDATE)
                 icon_score_address data s).storage icon_score_address = some ctx.tx.origin)
       then ctx.tx.hash :: (write_deploy_info_and_tx_params ctx
                 (if to_addr = ZERO_SCORE_ADDRESS then DeployType.INSTALL else DeployType.UPDATE)
                 icon_score_address data s).deploy_calls
       else (write_deploy_info_and_tx_params ctx
                 (if to_addr = ZERO_SCORE_ADDRESS then DeployType.INSTALL else DeployType.UPDATE)
                 icon_score_address data s).deploy_calls) := by
  simp only [invoke]
  generalize write_deploy_info_and_tx_params ctx
      (if to_addr = ZERO_SCORE_ADDRESS then DeployType.INSTALL else DeployType.UPDATE)
      icon_score_address data s = s1
  have hchar : (check_audit_ignore env ctx icon_score_address s1.storage = true) ↔
      (is_flag_on env.flags ENABLE_DEPLOY_AUDIT = false ∨
        (icon_score_address ∈ env.builtin_scores ∧
         get_score_owner s1.storage icon_score_address = some ctx.tx.origin)) := by
    simp [check_audit_ignore]
  by_cases hcond : is_flag_on env.flags ENABLE_DEPLOY_AUDIT = false ∨
      (icon_score_address ∈ env.builtin_scores ∧
       get_score_owner s1.storage icon_score_address = some ctx.tx.origin)
  · rw [if_pos hcond, hchar.mpr hcond]
    simp [deploy_snd_deploy_calls]
  · have hb : check_audit_ignore env ctx icon_score_address s1.storage = false := by
      rcases Bool.eq_false_or_eq_true (check_audit_ignore env ctx icon_score_address s1.storage)
        with ht | hf
      · exact absurd (hchar.mp ht) hcond
      · exact hf
    rw [if_neg hcond, hb]
    simp

/-- Claim C10: the content-type dispatch of `_score_deploy` updates the
caller's data mapping in place — for zip content it replaces the value of
the `content` key with the decoded bytes leaving every other key unchanged,
and for tbears content it returns the data mapping entirely unchanged. -/
theorem score_deploy_data_frame (d d' : Data) (c : String) (b : Bytes)
    (hz : alGet d "contentType" = some (Value.vStr "application/zip"))
    (hc : alGet d "content" = some (Value.vStr c))
    (hx : bytes_fromhex (String.drop c 2) = some b)
    (ht : alGet d' "contentType" = some (Value.vStr "application/tbears")) :
    score_deploy_data d = Except.ok (alSet d "content" (Value.vBytes b)) ∧
    alGet (alSet d "content" (Value.vBytes b)) "content" = some (Value.vBytes b) ∧
    (∀ k, k ≠ "content" → alGet (alSet d "content" (Value.vBytes b)) k = alGet d k) ∧
    score_deploy_data d' = Except.ok d' := by
  have hnt : opt_is_str (alGet d "contentType") "application/tbears" = false := by
    rw [hz]
    rfl
  have hzt : opt_is_str (alGet d "contentType") "application/zip" = true := by
    rw [hz]
    rfl
  have htt : opt_is_str (alGet d' "contentType") "application/tbears" = true := by
    rw [ht]
    rfl
  refine ⟨?_, alGet_alSet_self _ _ _, fun k hk => alGet_alSet_ne _ _ _ _ hk, ?_⟩
  · simp only [score_deploy_data]
    rw [hnt, hzt, hc]
    simp [hx]
  · simp only [score_deploy_data]
    rw [htt]
    simp

/-- Witness for claim C10: on the sample zip data, the `content` entry
becomes the decoded bytes of "1234", the unrelated `params` entry is
untouched, and the sample tbears data passes through unchanged. -/
theorem score_deploy_data_frame_witness :
    score_deploy_data dataW = Except.ok (alSet dataW "content" (Value.vBytes [18, 52])) ∧
    alGet (alSet dataW "content" (Value.vBytes [18, 52])) "params" = alGet dataW "params" ∧
    score_deploy_data dataTb = Except.ok dataTb :=
  ⟨(score_deploy_data_frame dataW dataTb "0x1234" [18, 52] rfl rfl rfl rfl).1,
   (score_deploy_data_frame dataW dataTb "0x1234" [18, 52] rfl rfl rfl rfl).2.2.1
     "params" (by decide),
   (score_deploy_data_frame dataW dataTb "0x1234" [18, 52] rfl rfl rfl rfl).2.2.2⟩

theorem on_deploy_slots_not_tbears (env : Env) (ctx : IconScoreContext)
    (dt : DeployType) (a : Address) (data : Data) (s : EngineState)
    (hnt : opt_is_str (alGet data "contentType") "application/tbears" = false) :
    (on_deploy env ctx dt a data s).2.slots =
      alPutNew s.slots (a, ctx.block.height, ctx.tx.index) (alGet data "content") := by
  simp only [on_deploy]
  rw [tbears_link_step_not_tbears _ _ _ _ _ hnt]
  split
  · rename_i e heq
    cases heq
  · rename_i s1 heq
    cases heq
    split
    · simp [get_icon_score_snd_slots]
    · split
      · simp [get_icon_score_snd_slots]
      · split
        · simp [initialize_score_snd, get_icon_score_snd_slots]
        · simp [get_icon_score_snd_slots]

/-- Claim C5: during `_score_deploy`, a content type that is neither
tbears nor zip raises `InvalidParams` "Invalid contentType: …" with the
state untouched — before any content is materialized and before any
lifecycle hook runs; for zip content the 0x-prefixed string is hex-decoded
to raw bytes first, and it is those bytes that the deployer materializes
into the (block height, tx index) slot. -/
theorem score_deploy_content_type_gate (env : Env) (ctx : IconScoreContext)
    (dt : DeployType) (a : Address) (s : EngineState) (d dz : Data)
    (c : String) (b : Bytes)
    (hb1 : opt_is_str (alGet d "contentType") "application/tbears" = false)
    (hb2 : opt_is_str (alGet d "contentType") "application/zip" = false)
    (hz : alGet dz "contentType" = some (Value.vStr "application/zip"))
    (hc : alGet dz "content" = some (Value.vStr c))
    (hx : bytes_fromhex (String.drop c 2) = some b) :
    score_deploy env ctx dt a d s =
      (Except.error (Err.invalidParams (invalid_content_type_msg (alGet d "contentType"))), s) ∧
    score_deploy env ctx dt a dz s =
      on_deploy env ctx dt a (alSet dz "content" (Value.vBytes b)) s ∧
    (score_deploy env ctx dt a dz s).2.slots =
      alPutNew s.slots (a, ctx.block.height, ctx.tx.index) (some (Value.vBytes b)) := by
  have hderr : score_deploy_data d =
      Except.error (Err.invalidParams (invalid_content_type_msg (alGet d "contentType"))) := by
    simp only [score_deploy_data]
    rw [hb1, hb2]
    simp
  have hdok : score_deploy_data dz = Except.ok (alSet dz "content" (Value.vBytes b)) := by
    have hnt : opt_is_str (alGet dz "contentType") "application/tbears" = false := by
      rw [hz]
      rfl
    have hzt : opt_is_str (alGet dz "contentType") "application/zip" = true := by
      rw [hz]
      rfl
    simp only [score_deploy_data]
    rw [hnt, hzt, hc]
    simp [hx]
  have h2 : score_deploy env ctx dt a dz s =
      on_deploy env ctx dt a (alSet dz "content" (Value.vBytes b)) s := by
    simp only [score_deploy]
    rw [hdok]
  refine ⟨?_, h2, ?_⟩
  · simp only [score_deploy]
    rw [hderr]
  · rw [h2]
    have hct' : alGet (alSet dz "content" (Value.vBytes b)) "contentType" =
        some (Value.vStr "application/zip") := by
      rw [alGet_alSet_ne _ _ _ _ (by decide), hz]
    have hnt' : opt_is_str (alGet (alSet dz "content" (Value.vBytes b)) "contentType")
        "application/tbears" = false := by
      rw [hct']
      rfl
    rw [on_deploy_slots_not_tbears _ _ _ _ _ _ hnt', alGet_alSet_self]

/-- Witness for claim C5: on the sample inputs, the `text/plain` data is
rejected with the state untouched, and the zip data's decoded bytes
`[0x12, 0x34]` are what lands in the deployer slot. -/
theorem score_deploy_content_type_gate_witness :
    score_deploy envW ctxW DeployType.INSTALL aW dataBad sW =
      (Except.error (Err.invalidParams (invalid_content_type_msg (alGet dataBad "contentType"))), sW) ∧
    score_deploy envW ctxW DeployType.INSTALL aW dataW sW =
      on_deploy envW ctxW DeployType.INSTALL aW (alSet dataW "content" (Value.vBytes [18, 52])) sW ∧
    (score_deploy envW ctxW DeployType.INSTALL aW dataW sW).2.slots =
      alPutNew sW.slots (aW, ctxW.block.height, ctxW.tx.index) (some (Value.vBytes [18, 52])) :=
  score_deploy_content_type_gate envW ctxW DeployType.INSTALL aW sW dataBad dataW
    "0x1234" [18, 52] rfl rfl rfl rfl rfl

/-- Claim C9: `deploy_for_builtin` links the source path into the
contract's version-0 slot (block height 0, transaction index 0), and —
provided the score instance resolves — invokes `on_install` with an empty
parameter set exactly when no runtime-visible database for the address
exists yet; when the database already exists no lifecycle hook is
invoked. -/
theorem deploy_for_builtin_links_and_hook (env : Env) (a : Address)
    (src_score_path : String) (s : EngineState)
    (hscore : env.score_exists a = true) :
    (deploy_for_builtin env a src_score_path s).2.links =
      alPutNew s.links (a, 0, 0) (Value.vStr src_score_path) ∧
    (deploy_for_builtin env a src_score_path s).2.hook_calls =
      (if a ∈ s.db_exists then s.hook_calls
       else (a, Hook.on_install, ([] : Data)) :: s.hook_calls) := by
  simp only [deploy_for_builtin, score_deploy_for_builtin, on_deploy_for_builtin]
  split
  · rename_i heq
    unfold get_icon_score at heq
    rw [if_pos hscore] at heq
    simp at heq
  · rename_i u heq
    constructor
    · split
      · simp [get_icon_score_snd_links]
      · simp [initialize_score_snd, get_icon_score_snd_links]
    · by_cases hdb : a ∈ s.db_exists
      · rw [if_pos hdb]
        simp [is_exist_db, hdb, get_icon_score_snd_hook_calls]
      · rw [if_neg hdb]
        simp [is_exist_db, hdb, initialize_score_snd, get_icon_score_snd_hook_calls]

/-- Witness for claim C9: installing a built-in score into the empty state
creates the (0, 0) link and invokes `on_install` with empty parameters. -/
theorem deploy_for_builtin_links_and_hook_witness :
    (deploy_for_builtin envW aW "score/builtin" sEmpty).2.links =
      alPutNew sEmpty.links (aW, 0, 0) (Value.vStr "score/builtin") ∧
    (deploy_for_builtin envW aW "score/builtin" sEmpty).2.hook_calls =
      (if aW ∈ sEmpty.db_exists then sEmpty.hook_calls
       else (aW, Hook.on_install, ([] : Data)) :: sEmpty.hook_calls) :=
  deploy_for_builtin_links_and_hook envW aW "score/builtin" sEmpty rfl

/-- Claim C4: `deploy` raises `InvalidParams` when no `TxDeployParams`
record exists for the hash, raises `InvalidParams` when no `DeployInfo`
record exists for the resolved address, and when both records exist neither
of these two errors is raised. -/
theorem deploy_missing_record_errors (env : Env) (ctx : IconScoreContext)
    (h : TxHash) (s : EngineState) :
    (get_deploy_tx_params s.storage h = none →
      (deploy env ctx h s).1 = Except.error (Err.invalidParams (tx_params_is_none_msg h))) ∧
    (∀ p, get_deploy_tx_params s.storage h = some p →
      get_deploy_info s.storage p.score_address = none →
      (deploy env ctx h s).1 =
        Except.error (Err.invalidParams (deploy_info_is_none_msg p.score_address))) ∧
    (∀ p i, get_deploy_tx_params s.storage h = some p →
      get_deploy_info s.storage p.score_address = some i →
      (deploy env ctx h s).1 ≠ Except.error (Err.invalidParams (tx_params_is_none_msg h)) ∧
      ∀ a : Address,
        (deploy env ctx h s).1 ≠ Except.error (Err.invalidParams (deploy_info_is_none_msg a))) := by
  refine ⟨?_, ?_, ?_⟩
  · intro hp
    simp only [deploy]
    have hp' : get_deploy_tx_params
        ({ s with deploy_calls := h :: s.deploy_calls } : EngineState).storage h = none := hp
    rw [hp']
  · intro p hp hi
    simp only [deploy]
    have hp' : get_deploy_tx_params
        ({ s with deploy_calls := h :: s.deploy_calls } : EngineState).storage h = some p := hp
    rw [hp']
    dsimp only
    have hi' : alGet s.storage.deploy_infos p.score_address = none := hi
    have hu : update_score_info s.storage p.score_address h = s.storage := by
      unfold update_score_info
      rw [hi']
    rw [hu, hi]
  · intro p i hp hi
    have hp' : get_deploy_tx_params
        ({ s with deploy_calls := h :: s.deploy_calls } : EngineState).storage h = some p := hp
    have hi' : alGet s.storage.deploy_infos p.score_address = some i := hi
    have hup : get_deploy_info (update_score_info s.storage p.score_address h) p.score_address =
        some { i with current_tx_hash := some h } := by
      unfold update_score_info
      rw [hi']
      exact alGet_alSet_self _ _ _
    have hkey : (deploy env ctx h s).1 =
        (score_deploy env ctx p.deploy_state p.score_address p.deploy_data
          ({ s with storage := update_score_info s.storage p.score_address h, deploy_calls := h :: s.deploy_calls })).1 := by
      simp only [deploy]
      rw [hp']
      dsimp only
      rw [hup]
    constructor
    · rw [hkey]
      intro hbad
      rcases score_deploy_invalid_params_msg _ _ _ _ _ _ _ hbad with hmsg | hmsg
      · exact absurd hmsg (lit_append_ne _ _ 't' 'I' _ _ rfl rfl (by decide))
      · exact absurd hmsg (lit_append_ne _ _ 't' 's' _ _ rfl rfl (by decide))
    · intro a
      rw [hkey]
      intro hbad
      rcases score_deploy_invalid_params_msg _ _ _ _ _ _ _ hbad with hmsg | hmsg
      · exact absurd hmsg (lit_append_ne _ _ 'd' 'I' _ _ rfl rfl (by decide))
      · exact absurd hmsg (lit_append_ne _ _ 'd' 's' _ _ rfl rfl (by decide))

/-- Witness for claim C4: calling `deploy` with the unrecorded hash `[9]`
against the sample state fails with the `tx_params is None` error. -/
theorem deploy_missing_record_errors_witness :
    (deploy envW ctxW [9] sW).1 =
      Except.error (Err.invalidParams (tx_params_is_none_msg [9])) :=
  (deploy_missing_record_errors envW ctxW [9] sW).1 rfl

/-- Claim C3 counterexample: a failed `deploy` can leave a partially
applied state change visible: with params recorded for hash `[1]` under an
unsupported content type and an existing `DeployInfo` whose current hash is
`[9]`, `deploy` fails with `Invalid contentType` yet
`DeployInfo.current_tx_hash` has been promoted from `[9]` to `[1]`. -/
theorem deploy_partial_state_counterexample :
    (deploy envW ctxW [1] sC3).1 =
      Except.error (Err.invalidParams (invalid_content_type_msg (some (Value.vStr "text/plain")))) ∧
    (get_deploy_info sC3.storage aW).map DeployInfo.current_tx_hash = some (some [9]) ∧
    (get_deploy_info (deploy envW ctxW [1] sC3).2.storage aW).map DeployInfo.current_tx_hash =
      some (some [1]) ∧
    (get_deploy_info (deploy envW ctxW [1] sC3).2.storage aW).map DeployInfo.current_tx_hash ≠
      (get_deploy_info sC3.storage aW).map DeployInfo.current_tx_hash :=
  ⟨rfl, by decide, by decide, by decide⟩

/-- Claim C3 amended: if `deploy` fails because no `TxDeployParams` record
exists for the hash, or because no `DeployInfo` record exists for the
resolved address, the storage is unchanged; but once both records are
found, `DeployInfo.current_tx_hash` is promoted to the hash before any
further validation, so a `deploy` that fails later (invalid content type,
content decoding failure, unresolvable score instance, failing hook) leaves
the promotion visible afterwards. -/
theorem deploy_failure_state_characterization (env : Env)
    (ctx : IconScoreContext) (h : TxHash) (s : EngineState) :
    (get_deploy_tx_params s.storage h = none →
      (deploy env ctx h s).2.storage = s.storage) ∧
    (∀ p, get_deploy_tx_params s.storage h = some p →
      get_deploy_info s.storage p.score_address = none →
      (deploy env ctx h s).2.storage = s.storage) ∧
    (∀ p i, get_deploy_tx_params s.storage h = some p →
      get_deploy_info s.storage p.score_address = some i →
      (get_deploy_info (deploy env ctx h s).2.storage p.score_address).map
        DeployInfo.current_tx_hash = some (some h)) := by
  refine ⟨?_, ?_, ?_⟩
  · intro hp
    simp only [deploy]
    have hp' : get_deploy_tx_params
        ({ s with deploy_calls := h :: s.deploy_calls } : EngineState).storage h = none := hp
    rw [hp']
  · intro p hp hi
    simp only [deploy]
    have hp' : get_deploy_tx_params
        ({ s with deploy_calls := h :: s.deploy_calls } : EngineState).storage h = some p := hp
    rw [hp']
    dsimp only
    have hi' : alGet s.storage.deploy_infos p.score_address = none := hi
    have hu : update_score_info s.storage p.score_address h = s.storage := by
      unfold update_score_info
      rw [hi']
    rw [hu, hi]
  · intro p i hp hi
    have hp' : get_deploy_tx_params
        ({ s with deploy_calls := h :: s.deploy_calls } : EngineState).storage h = some p := hp
    have hi' : alGet s.storage.deploy_infos p.score_address = some i := hi
    have hup : get_deploy_info (update_score_info s.storage p.score_address h) p.score_address =
        some { i with current_tx_hash := some h } := by
      unfold update_score_info
      rw [hi']
      exact alGet_alSet_self _ _ _
    have hkey : (deploy env ctx h s).2 =
        (score_deploy env ctx p.deploy_state p.score_address p.deploy_data
          ({ s with storage := update_score_info s.storage p.score_address h, deploy_calls := h :: s.deploy_calls })).2 := by
      simp only [deploy]
      rw [hp']
      dsimp only
      rw [hup]
    rw [hkey, (score_deploy_preserves _ _ _ _ _ _).1]
    dsimp only
    rw [hup]
    rfl

/-- Witness for claim C3 amended: at the counterexample input the promoted
hash `[1]` is what the failed call leaves on record. -/
theorem deploy_failure_state_characterization_witness :
    (get_deploy_info (deploy envW ctxW [1] sC3).2.storage aW).map
      DeployInfo.current_tx_hash = some (some [1]) :=
  (deploy_failure_state_characterization envW ctxW [1] sC3).2.2 pC3 iC3 rfl rfl

/-- Claim C2: the lifecycle hook is invoked at most once per content
version: `_on_deploy` skips the hook whenever a runtime-visible database
already exists for the address at the time of the call, and consequently a
second `deploy` for the same transaction hash after a first `deploy` that
invoked a hook (a freshly installed address) invokes no hook again. -/
theorem on_install_called_at_most_once (env : Env)
    (ctx ctx2 : IconScoreContext) (h : TxHash) (s : EngineState)
    (r1 r2 : Except Err Unit) (s1 s2 : EngineState)
    (h1 : deploy env ctx h s = (r1, s1))
    (h2 : deploy env ctx2 h s1 = (r2, s2))
    (hcalled : s1.hook_calls ≠ s.hook_calls) :
    s2.hook_calls = s1.hook_calls ∧
    ∀ (e : Env) (c : IconScoreContext) (dt : DeployType) (a : Address)
      (d : Data) (t : EngineState),
      a ∈ t.db_exists → (on_deploy e c dt a d t).2.hook_calls = t.hook_calls := by
  refine ⟨?_, fun e c dt a d t hdb => on_deploy_hook_calls_of_db e c dt a d t hdb⟩
  cases hp : get_deploy_tx_params s.storage h with
  | none =>
    exfalso
    apply hcalled
    have hph : (deploy env ctx h s).2.hook_calls = s.hook_calls := by
      simp only [deploy]
      have hp' : get_deploy_tx_params
          ({ s with deploy_calls := h :: s.deploy_calls } : EngineState).storage h = none := hp
      rw [hp']
    rw [h1] at hph
    exact hph
  | some p =>
    cases hi : get_deploy_info (update_score_info s.storage p.score_address h)
        p.score_address with
    | none =>
      exfalso
      apply hcalled
      have hph : (deploy env ctx h s).2.hook_calls = s.hook_calls := by
        simp only [deploy]
        have hp' : get_deploy_tx_params
            ({ s with deploy_calls := h :: s.deploy_calls } : EngineState).storage h = some p := hp
        rw [hp']
        dsimp only
        rw [hi]
      rw [h1] at hph
      exact hph
    | some i =>
      have hp' : get_deploy_tx_params
          ({ s with deploy_calls := h :: s.deploy_calls } : EngineState).storage h = some p := hp
      have hkey : deploy env ctx h s =
          score_deploy env ctx p.deploy_state p.score_address p.deploy_data
            ({ s with storage := update_score_info s.storage p.score_address h, deploy_calls := h :: s.deploy_calls }) := by
        simp only [deploy]
        rw [hp']
        dsimp only
        rw [hi]
      rcases score_deploy_hook_spec env ctx p.deploy_state p.score_address p.deploy_data
          ({ s with storage := update_score_info s.storage p.score_address h, deploy_calls := h :: s.deploy_calls }) with heq | hmem
      · exfalso
        apply hcalled
        rw [← hkey] at heq
        rw [h1] at heq
        exact heq
      · rw [← hkey] at hmem
        rw [h1] at hmem
        have htab : get_deploy_tx_params s1.storage h = some p := by
          have htt := deploy_snd_tx_table env ctx h s
          rw [h1] at htt
          show alGet s1.storage.tx_params_table h = some p
          rw [show s1.storage.tx_params_table = s.storage.tx_params_table from htt]
          exact hp
        have hskip := deploy_hook_skip env ctx2 h s1 p htab hmem
        rw [h2] at hskip
        exact hskip

/-- Witness for claim C2: on the sample state a first `deploy` of hash
`[1]` invokes `on_install`; running `deploy` again for the same hash leaves
the hook-call log unchanged. -/
theorem on_install_called_at_most_once_witness :
    (deploy envW ctxW [1] ((deploy envW ctxW [1] sW).2)).2.hook_calls =
      ((deploy envW ctxW [1] sW).2).hook_calls :=
  (on_install_called_at_most_once envW ctxW ctxW [1] sW
    (deploy envW ctxW [1] sW).1
    (deploy envW ctxW [1] ((deploy envW ctxW [1] sW).2)).1
    (deploy envW ctxW [1] sW).2
    (deploy envW ctxW [1] ((deploy envW ctxW [1] sW).2)).2
    rfl rfl (fun hq => List.noConfusion hq)).1

end IconService
